import Mathlib

/-!
Shallow embedding of `scripts/make_text.py` (crispresso repository).

The script converts a spreadsheet of sample metadata into a tab-separated
batch-configuration file.  The pipeline (`make_text_input`, lines 67-137 of
the source) is:

  read excel -> assert no nulls -> project/rename the sample-name column ->
  derive `fastq_r1` / `fastq_r2` path columns by string concatenation ->
  warn about missing fastq files -> insert three numeric parameter columns
  at fixed positions -> assert the fastq directory exists -> copy the
  amplicon/guide sequence columns -> append two plotting parameters ->
  assert no nulls -> write as tab-separated values -> `sys.exit(0)`.

Modelling choices:
* A spreadsheet cell is `Option String` (`none` = NaN/null); the three
  required columns of the input are structure fields, all remaining columns
  of the spreadsheet are the `extra` list (they take part in the null check
  of line 90 but in nothing else).
* Values held in the output DataFrame are the inductive `Cell` (string /
  int / float / NaN); Python floats are modelled as `Rat` - the script only
  stores and writes them, no float arithmetic is performed.
* The environment (`Env`) abstracts the outside world: the result of
  `pd.read_excel` (`none` = the read raised), the set of existing filesystem
  paths, and whether `to_csv` succeeds.
* The run result records the log events in order, the table written to the
  output file (if any), and the outcome: `sys.exit(0)` or an uncaught
  Python exception.  Assertion failures are tagged with the source line of
  the failing `assert` (90, 119 or 126).
* Line 87 of the source reads `logging.info.error('Failed to open file', ...)`
  inside the `except Exception` handler: `logging.info` is a function object
  with no `error` attribute, so the handler itself raises `AttributeError`
  and nothing is logged; this is modelled faithfully by the `attributeError`
  outcome on a failed read.
-/

namespace MakeText

/-- One row of the input spreadsheet.  `NGS_sample_name`, `Ref_sequence` and
`Guide_Sequence` are the columns the script reads; `extra` holds the cells of
every other column of the spreadsheet (relevant only to the null check of
line 90, which spans all columns). -/
structure InputRow where
  NGS_sample_name : Option String
  Ref_sequence : Option String
  Guide_Sequence : Option String
  extra : List (Option String)
deriving DecidableEq

/-- Row-wise null test `input_df.isnull().any(axis=1)` (line 90): some cell
in some column of the row is null. -/
def inputRowHasNull (r : InputRow) : Bool :=
  r.NGS_sample_name.isNone || r.Ref_sequence.isNone || r.Guide_Sequence.isNone
    || r.extra.any Option.isNone

/-- A value held in a cell of the output DataFrame. -/
inductive Cell where
  | na
  | str (s : String)
  | int (n : Int)
  | float (q : Rat)
deriving DecidableEq

/-- Null test `isnull` on a single output cell. -/
def Cell.isna : Cell → Bool
  | .na => true
  | _ => false

/-- A spreadsheet cell carried into the output DataFrame: null becomes NaN. -/
def Cell.ofOpt : Option String → Cell
  | some s => .str s
  | none => .na

/-- pandas `.astype(str)`: a string stays itself, NaN renders as `"nan"`. -/
def astype_str : Option String → String
  | some s => s
  | none => "nan"

/-- Lines 96-97: `out_df['fastq_r1'] = out_df['name'] + '_R1_001.fastq.gz'`
then `out_df['fastq_r1'] = fastq_dir + out_df['fastq_r1'].astype(str)`.
String addition with NaN yields NaN, which `astype(str)` turns into `"nan"`;
for a non-null name the result is the verbatim concatenation. -/
def fastq_r1_of (fastq_dir : String) (name : Option String) : String :=
  fastq_dir ++ astype_str (name.map (fun n => n ++ "_R1_001.fastq.gz"))

/-- Lines 99-100: same derivation for the R2 path. -/
def fastq_r2_of (fastq_dir : String) (name : Option String) : String :=
  fastq_dir ++ astype_str (name.map (fun n => n ++ "_R2_001.fastq.gz"))

/-- The arguments `main` passes to `make_text_input` (lines 55-64); argparse
has already substituted defaults for omitted optional arguments. -/
structure Args where
  input_file : String
  quantification_window_center : Int
  quantification_window_size : Int
  min_average_read_quality : Int
  fastq_dir : String
  min_frequency_alleles_around_cut_to_plot : Rat
  plot_window_size : Int
  outfile : String
deriving DecidableEq

/-- argparse default of `--quantification_window_center` (line 30). -/
def default_quantification_window_center : Int := -3

/-- argparse default of `--quantification_window_size` (line 33). -/
def default_quantification_window_size : Int := 1

/-- argparse default of `--min_average_read_quality` (line 36). -/
def default_min_average_read_quality : Int := 10

/-- argparse default of `--min_frequency_alleles_around_cut_to_plot` (line 42). -/
def default_min_frequency_alleles_around_cut_to_plot : Rat := 0.2

/-- argparse default of `--plot_window_size` (line 45). -/
def default_plot_window_size : Int := 20

/-- The outside world as the script observes it: the outcome of
`pd.read_excel` (`none` = the read raised an exception), the existing
filesystem paths, and whether `to_csv` on the output path succeeds. -/
structure Env where
  readResult : Option (List InputRow)
  fs : List String
  writeOk : Bool
deriving DecidableEq

/-- Existence test `Path(p).exists()` against the abstract filesystem. -/
def pathExists (fs : List String) (p : String) : Bool := fs.contains p

/-- One logging event, by severity. -/
inductive LogEvent where
  | info (msg : String)
  | warning (msg : String)
  | error (msg : String)
deriving DecidableEq

/-- An uncaught Python exception terminating the run: the `AttributeError`
raised by line 87's `logging.info.error`, or an `AssertionError` tagged with
the source line of the failing `assert`. -/
inductive PyError where
  | attributeError
  | assertionError (line : Nat)
deriving DecidableEq

/-- How the process ends: `sys.exit(0)` (line 137) or an uncaught exception. -/
inductive Outcome where
  | exit0
  | raised (e : PyError)
deriving DecidableEq

/-- Observable result of a run of `make_text_input`: the log events in
order, the table written to `outfile` (if the write happened and
succeeded), and the process outcome. -/
structure RunResult where
  log : List LogEvent
  written : Option (List (List Cell))
  outcome : Outcome
deriving DecidableEq

/-- The cells of one output row, built exactly as the source builds the
columns of `out_df`, in source order:
line 92/94 project and rename `NGS_sample_name` to `name`; lines 96-100
append `fastq_r1` and `fastq_r2`; lines 112/114/116 insert the three numeric
parameters at positions 1, 2, 3; lines 121-124 append `amplicon_seq`,
`guide_seq` and the two plotting parameters. -/
def buildRow (a : Args) (r : InputRow) : List Cell :=
  let cs := [Cell.ofOpt r.NGS_sample_name]
  let cs := cs ++ [Cell.str (fastq_r1_of a.fastq_dir r.NGS_sample_name)]
  let cs := cs ++ [Cell.str (fastq_r2_of a.fastq_dir r.NGS_sample_name)]
  let cs := cs.insertIdx 1 (Cell.int a.quantification_window_center)
  let cs := cs.insertIdx 2 (Cell.int a.quantification_window_size)
  let cs := cs.insertIdx 3 (Cell.int a.min_average_read_quality)
  let cs := cs ++ [Cell.ofOpt r.Ref_sequence]
  let cs := cs ++ [Cell.ofOpt r.Guide_Sequence]
  let cs := cs ++ [Cell.float a.min_frequency_alleles_around_cut_to_plot]
  cs ++ [Cell.int a.plot_window_size]

/-- The column names of `out_df`, produced by the same sequence of
operations as the row cells (rename, appends, `insert` at 1/2/3, appends). -/
def out_cols : List String :=
  let cs := ["name"]
  let cs := cs ++ ["fastq_r1"]
  let cs := cs ++ ["fastq_r2"]
  let cs := cs.insertIdx 1 "quantification_window_center"
  let cs := cs.insertIdx 2 "quantification_window_size"
  let cs := cs.insertIdx 3 "min_average_read_quality"
  let cs := cs ++ ["amplicon_seq"]
  let cs := cs ++ ["guide_seq"]
  let cs := cs ++ ["min_frequency_alleles_around_cut_to_plot"]
  cs ++ ["plot_window_size"]

/-- The cell of an output row under a given column name. -/
def colValue (row : List Cell) (c : String) : Option Cell :=
  row[out_cols.indexOf c]?

/-- Line 104: the set of derived fastq paths that do not exist, R2 paths
first and then the R1 paths, deduplicated (Python set semantics; only
membership in the set is meaningful). -/
def missing_fastq_files (fs : List String) (r1s r2s : List String) : List String :=
  (r2s.filter (fun x => !(pathExists fs x)) ++ r1s.filter (fun x => !(pathExists fs x))).dedup

/-- Line 110: the warning logged for a missing fastq file. -/
def warn_missing (p : String) : LogEvent :=
  .warning ("File does not exist: " ++ p)

/-- Line 135: the final info message. -/
def msg_success (input_file outfile : String) : String :=
  "Successfully converted " ++ input_file ++ " to " ++ outfile ++ " for CRISPRessoBatch!"

/-- The body of `make_text_input` (lines 67-137).  Branch structure:
* `pd.read_excel` raised (line 86): the handler calls `logging.info.error`,
  which itself raises `AttributeError` (line 87) - nothing logged, no output.
* the null assert of line 90 (`len(input_df[input_df.isnull().any(axis=1)]) == 0`);
* missing-fastq warnings (lines 104-110);
* the directory assert of line 119 (`assert fastq_dir.exists()`);
* the final null assert of line 126;
* `to_csv` (line 129): on failure the exception is logged as an error and
  swallowed; either way the success info of line 135 is logged and the
  process exits 0 (line 137). -/
def make_text_input (a : Args) (env : Env) : RunResult :=
  let log := [LogEvent.info "Making input.txt file"]
  match env.readResult with
  | none =>
      { log := log, written := none, outcome := .raised .attributeError }
  | some input_df =>
      let log := log ++ [LogEvent.info ("Successfully opened " ++ a.input_file),
                         LogEvent.info "Checking for null values in input_excel.xlsx..."]
      if (input_df.filter inputRowHasNull).length == 0 then
        let r1s := input_df.map (fun r => fastq_r1_of a.fastq_dir r.NGS_sample_name)
        let r2s := input_df.map (fun r => fastq_r2_of a.fastq_dir r.NGS_sample_name)
        let log := log ++ [LogEvent.info "Checking that all paths to fastq files exist..."]
        let log := log ++ (missing_fastq_files env.fs r1s r2s).map warn_missing
        if pathExists env.fs a.fastq_dir then
          let out_rows := input_df.map (buildRow a)
          if (out_rows.filter (fun cs => cs.any Cell.isna)).length == 0 then
            if env.writeOk then
              { log := log ++ [LogEvent.info (msg_success a.input_file a.outfile)],
                written := some out_rows, outcome := .exit0 }
            else
              { log := log ++ [LogEvent.error "Failed to write file",
                               LogEvent.info (msg_success a.input_file a.outfile)],
                written := none, outcome := .exit0 }
          else
            { log := log, written := none, outcome := .raised (.assertionError 126) }
        else
          { log := log, written := none, outcome := .raised (.assertionError 119) }
      else
        { log := log, written := none, outcome := .raised (.assertionError 90) }

/-- Rendering of one cell by `to_csv`; the rendering of a Python float is
kept abstract (`showF`), no claim depends on it. -/
def Cell.render (showF : Rat → String) : Cell → String
  | .na => ""
  | .str s => s
  | .int n => toString n
  | .float q => showF q

/-- Line 129: `out_df.to_csv(outfile, sep="\t", index=False)` - the lines of
the written file: a header row of the column names joined by tabs, then one
row per table row, its cells rendered and joined by tabs, no index column. -/
def to_csv (showF : Rat → String) (rows : List (List Cell)) : List String :=
  String.intercalate "\t" out_cols
    :: rows.map (fun r => String.intercalate "\t" (r.map (Cell.render showF)))

/-! Concrete fixtures used by the witnesses. -/

/-- A well-formed sample row. -/
def sampleRow : InputRow :=
  { NGS_sample_name := some "S1", Ref_sequence := some "ACGT",
    Guide_Sequence := some "AC", extra := [] }

/-- A row with a null in a selected column (`Guide_Sequence`). -/
def nullGuideRow : InputRow :=
  { NGS_sample_name := some "S1", Ref_sequence := some "ACGT",
    Guide_Sequence := none, extra := [] }

/-- A row whose only null sits in a column never projected into the output. -/
def extraNullRow : InputRow :=
  { NGS_sample_name := some "S1", Ref_sequence := some "ACGT",
    Guide_Sequence := some "AC", extra := [none] }

/-- Arguments with all optional parameters at their argparse defaults. -/
def sampleArgs : Args :=
  { input_file := "input_excel.xlsx"
    quantification_window_center := default_quantification_window_center
    quantification_window_size := default_quantification_window_size
    min_average_read_quality := default_min_average_read_quality
    fastq_dir := "/data/"
    min_frequency_alleles_around_cut_to_plot := default_min_frequency_alleles_around_cut_to_plot
    plot_window_size := default_plot_window_size
    outfile := "input.txt" }

/-- Environment of a completing run: readable input, existing fastq
directory, writable output.  The derived fastq paths are absent from `fs`,
so both are warned about. -/
def happyEnv : Env :=
  { readResult := some [sampleRow], fs := ["/data/"], writeOk := true }

/-- Environment whose input holds a null in a selected column. -/
def nullEnv : Env :=
  { readResult := some [nullGuideRow], fs := ["/data/"], writeOk := true }

/-- Environment whose input's only null is in a never-projected column. -/
def extraNullEnv : Env :=
  { readResult := some [extraNullRow], fs := ["/data/"], writeOk := true }

/-- Environment where `pd.read_excel` raises. -/
def noReadEnv : Env :=
  { readResult := none, fs := ["/data/"], writeOk := true }

/-- Environment where the fastq directory does not exist. -/
def noDirEnv : Env :=
  { readResult := some [sampleRow], fs := [], writeOk := true }

/-- Environment where writing the output file fails. -/
def noWriteEnv : Env :=
  { readResult := some [sampleRow], fs := ["/data/"], writeOk := false }

/-- The four info events every run that passes the null check logs before
any warning (lines 79, 83, 89, 102). -/
def logHead (a : Args) : List LogEvent :=
  [LogEvent.info "Making input.txt file",
   LogEvent.info ("Successfully opened " ++ a.input_file),
   LogEvent.info "Checking for null values in input_excel.xlsx...",
   LogEvent.info "Checking that all paths to fastq files exist..."]

/-- The warnings logged for the missing fastq files of a run (lines 104-110). -/
def warnLog (a : Args) (env : Env) (df : List InputRow) : List LogEvent :=
  (missing_fastq_files env.fs
    (df.map fun r => fastq_r1_of a.fastq_dir r.NGS_sample_name)
    (df.map fun r => fastq_r2_of a.fastq_dir r.NGS_sample_name)).map warn_missing

/-! Helper lemmas. -/

theorem buildRow_eq (a : Args) (r : InputRow) :
    buildRow a r =
      [Cell.ofOpt r.NGS_sample_name,
       Cell.int a.quantification_window_center,
       Cell.int a.quantification_window_size,
       Cell.int a.min_average_read_quality,
       Cell.str (fastq_r1_of a.fastq_dir r.NGS_sample_name),
       Cell.str (fastq_r2_of a.fastq_dir r.NGS_sample_name),
       Cell.ofOpt r.Ref_sequence,
       Cell.ofOpt r.Guide_Sequence,
       Cell.float a.min_frequency_alleles_around_cut_to_plot,
       Cell.int a.plot_window_size] := rfl

theorem buildRow_not_na (a : Args) (r : InputRow) (h : inputRowHasNull r = false) :
    (buildRow a r).any Cell.isna = false := by
  rw [buildRow_eq]
  cases hn : r.NGS_sample_name <;> cases hf : r.Ref_sequence <;>
    cases hg : r.Guide_Sequence <;>
    simp_all [inputRowHasNull, Cell.ofOpt, Cell.isna]

theorem mem_missing (fs : List String) (r1s r2s : List String) (p : String) :
    p ∈ missing_fastq_files fs r1s r2s ↔
      (p ∈ r2s ∨ p ∈ r1s) ∧ pathExists fs p = false := by
  simp [missing_fastq_files, List.mem_dedup, List.mem_append, List.mem_filter,
        Bool.not_eq_true', or_and_right]

theorem run_null_abort (a : Args) (env : Env) (df : List InputRow)
    (hr : env.readResult = some df)
    (hnn : df.filter inputRowHasNull ≠ []) :
    make_text_input a env =
      { log := [LogEvent.info "Making input.txt file",
                LogEvent.info ("Successfully opened " ++ a.input_file),
                LogEvent.info "Checking for null values in input_excel.xlsx..."],
        written := none, outcome := .raised (.assertionError 90) } := by
  have hlen : ¬ (df.filter inputRowHasNull).length = 0 := by
    simpa [List.length_eq_zero] using hnn
  simp [make_text_input, hr, hlen]

theorem run_dir_missing (a : Args) (env : Env) (df : List InputRow)
    (hr : env.readResult = some df)
    (hnn : df.filter inputRowHasNull = [])
    (hdir : pathExists env.fs a.fastq_dir = false) :
    make_text_input a env =
      { log := logHead a ++ warnLog a env df, written := none,
        outcome := .raised (.assertionError 119) } := by
  simp [make_text_input, hr, hnn, hdir, logHead, warnLog]

theorem run_complete (a : Args) (env : Env) (df : List InputRow)
    (hr : env.readResult = some df)
    (hnn : df.filter inputRowHasNull = [])
    (hdir : pathExists env.fs a.fastq_dir = true) :
    make_text_input a env =
      if env.writeOk then
        { log := logHead a ++ warnLog a env df
                   ++ [LogEvent.info (msg_success a.input_file a.outfile)],
          written := some (df.map (buildRow a)), outcome := .exit0 }
      else
        { log := logHead a ++ warnLog a env df
                   ++ [LogEvent.error "Failed to write file",
                       LogEvent.info (msg_success a.input_file a.outfile)],
          written := none, outcome := .exit0 } := by
  have hfin : (df.map (buildRow a)).filter (fun cs => cs.any Cell.isna) = [] := by
    rw [List.filter_eq_nil_iff]
    intro row hrow
    obtain ⟨r, hrdf, rfl⟩ := List.mem_map.mp hrow
    have hr0 : inputRowHasNull r = false := by
      have := List.filter_eq_nil_iff.mp hnn r hrdf
      simpa using this
    simp [buildRow_not_na a r hr0]
  cases hw : env.writeOk <;>
    simp [make_text_input, hr, hnn, hdir, hfin, hw, logHead, warnLog]

theorem written_inv (a : Args) (env : Env) (t : List (List Cell))
    (h : (make_text_input a env).written = some t) :
    ∃ df, env.readResult = some df ∧ df.filter inputRowHasNull = [] ∧
      pathExists env.fs a.fastq_dir = true ∧ env.writeOk = true ∧
      t = df.map (buildRow a) := by
  cases hr : env.readResult with
  | none => simp [make_text_input, hr] at h
  | some df =>
    refine ⟨df, rfl, ?_⟩
    by_cases hnn : df.filter inputRowHasNull = []
    · by_cases hdir : pathExists env.fs a.fastq_dir = true
      · have hrun := run_complete a env df hr hnn hdir
        cases hw : env.writeOk
        · rw [hrun, hw] at h; simp at h
        · rw [hrun, hw] at h
          simp at h
          exact ⟨hnn, hdir, rfl, h.symm⟩
      · have hrun := run_dir_missing a env df hr hnn (by simpa using hdir)
        rw [hrun] at h; simp at h
    · have hrun := run_null_abort a env df hr hnn
      rw [hrun] at h; simp at h

theorem colValue_buildRow_fastq_r1 (a : Args) (r : InputRow) :
    colValue (buildRow a r) "fastq_r1" =
      some (Cell.str (fastq_r1_of a.fastq_dir r.NGS_sample_name)) := rfl

theorem colValue_buildRow_fastq_r2 (a : Args) (r : InputRow) :
    colValue (buildRow a r) "fastq_r2" =
      some (Cell.str (fastq_r2_of a.fastq_dir r.NGS_sample_name)) := rfl

theorem colValue_buildRow_qwc (a : Args) (r : InputRow) :
    colValue (buildRow a r) "quantification_window_center" =
      some (Cell.int a.quantification_window_center) := rfl

theorem colValue_buildRow_qws (a : Args) (r : InputRow) :
    colValue (buildRow a r) "quantification_window_size" =
      some (Cell.int a.quantification_window_size) := rfl

theorem colValue_buildRow_marq (a : Args) (r : InputRow) :
    colValue (buildRow a r) "min_average_read_quality" =
      some (Cell.int a.min_average_read_quality) := rfl

theorem colValue_buildRow_mfacp (a : Args) (r : InputRow) :
    colValue (buildRow a r) "min_frequency_alleles_around_cut_to_plot" =
      some (Cell.float a.min_frequency_alleles_around_cut_to_plot) := rfl

theorem colValue_buildRow_pws (a : Args) (r : InputRow) :
    colValue (buildRow a r) "plot_window_size" =
      some (Cell.int a.plot_window_size) := rfl

/-! Claim theorems. -/

/-- Claim C1: for every row of the output table, the `fastq_r1` and
`fastq_r2` columns are the verbatim concatenations
`fastq_dir ++ name ++ "_R1_001.fastq.gz"` and
`fastq_dir ++ name ++ "_R2_001.fastq.gz"`, where `name` is that row's
`NGS_sample_name` value and `fastq_dir` the CLI-supplied directory string,
with no separator inserted. -/
theorem C1_fastq_path_columns (a : Args) (env : Env) (df : List InputRow)
    (t : List (List Cell))
    (hr : env.readResult = some df)
    (h : (make_text_input a env).written = some t) :
    ∀ (i : Nat) (r : InputRow) (row : List Cell), df[i]? = some r → t[i]? = some row →
      ∃ n, r.NGS_sample_name = some n ∧
        colValue row "fastq_r1" =
          some (Cell.str (a.fastq_dir ++ n ++ "_R1_001.fastq.gz")) ∧
        colValue row "fastq_r2" =
          some (Cell.str (a.fastq_dir ++ n ++ "_R2_001.fastq.gz")) := by
  obtain ⟨df', hr', hnn, _, _, ht⟩ := written_inv a env t h
  have hdf : df = df' := by rw [hr] at hr'; exact Option.some.inj hr'
  subst hdf
  subst ht
  intro i r row hi hrow
  rw [List.getElem?_map, hi, Option.map_some'] at hrow
  obtain rfl := Option.some.inj hrow
  have hmem : r ∈ df := List.getElem?_mem hi
  have hr0 : inputRowHasNull r = false := by
    simpa using List.filter_eq_nil_iff.mp hnn r hmem
  cases hn : r.NGS_sample_name with
  | none => simp [inputRowHasNull, hn] at hr0
  | some n =>
    refine ⟨n, rfl, ?_, ?_⟩
    · rw [colValue_buildRow_fastq_r1, hn]
      simp [fastq_r1_of, astype_str, String.append_assoc]
    · rw [colValue_buildRow_fastq_r2, hn]
      simp [fastq_r2_of, astype_str, String.append_assoc]

theorem C1_witness :
    happyEnv.readResult = some [sampleRow] ∧
    (make_text_input sampleArgs happyEnv).written = some [buildRow sampleArgs sampleRow] ∧
    ∀ (i : Nat) (r : InputRow) (row : List Cell), ([sampleRow] : List InputRow)[i]? = some r →
      ([buildRow sampleArgs sampleRow] : List (List Cell))[i]? = some row →
      ∃ n, r.NGS_sample_name = some n ∧
        colValue row "fastq_r1" =
          some (Cell.str (sampleArgs.fastq_dir ++ n ++ "_R1_001.fastq.gz")) ∧
        colValue row "fastq_r2" =
          some (Cell.str (sampleArgs.fastq_dir ++ n ++ "_R2_001.fastq.gz")) :=
  ⟨rfl, rfl,
   C1_fastq_path_columns sampleArgs happyEnv [sampleRow]
     [buildRow sampleArgs sampleRow] rfl rfl⟩

/-- Claim C2: an input spreadsheet with a null cell in one of the selected
columns (`NGS_sample_name`, `Ref_sequence`, `Guide_Sequence`) makes the run
halt with the assertion failure of line 90, before any output is written. -/
theorem C2_null_selected_aborts (a : Args) (env : Env) (df : List InputRow)
    (hr : env.readResult = some df)
    (hnull : ∃ r ∈ df, r.NGS_sample_name = none ∨ r.Ref_sequence = none ∨
      r.Guide_Sequence = none) :
    (make_text_input a env).outcome = .raised (.assertionError 90) ∧
    (make_text_input a env).written = none := by
  obtain ⟨r, hm, hor⟩ := hnull
  have hnn : inputRowHasNull r = true := by
    rcases hor with h1 | h1 | h1 <;> simp [inputRowHasNull, h1]
  have hne : df.filter inputRowHasNull ≠ [] :=
    List.ne_nil_of_mem (List.mem_filter.mpr ⟨hm, hnn⟩)
  rw [run_null_abort a env df hr hne]
  exact ⟨rfl, rfl⟩

theorem C2_witness :
    nullEnv.readResult = some [nullGuideRow] ∧
    (∃ r ∈ [nullGuideRow], r.NGS_sample_name = none ∨ r.Ref_sequence = none ∨
      r.Guide_Sequence = none) ∧
    ((make_text_input sampleArgs nullEnv).outcome = .raised (.assertionError 90) ∧
     (make_text_input sampleArgs nullEnv).written = none) :=
  ⟨rfl, ⟨nullGuideRow, List.mem_singleton.mpr rfl, Or.inr (Or.inr rfl)⟩,
   C2_null_selected_aborts sampleArgs nullEnv [nullGuideRow] rfl
     ⟨nullGuideRow, List.mem_singleton.mpr rfl, Or.inr (Or.inr rfl)⟩⟩

/-- Claim C3: every row of the output table carries the CLI-supplied values
in the five constant parameter columns, and the argparse defaults of those
parameters are -3, 1, 10, 0.2 and 20. -/
theorem C3_constant_columns (a : Args) (env : Env) (t : List (List Cell))
    (h : (make_text_input a env).written = some t) :
    (∀ row ∈ t,
      colValue row "quantification_window_center" =
        some (Cell.int a.quantification_window_center) ∧
      colValue row "quantification_window_size" =
        some (Cell.int a.quantification_window_size) ∧
      colValue row "min_average_read_quality" =
        some (Cell.int a.min_average_read_quality) ∧
      colValue row "min_frequency_alleles_around_cut_to_plot" =
        some (Cell.float a.min_frequency_alleles_around_cut_to_plot) ∧
      colValue row "plot_window_size" =
        some (Cell.int a.plot_window_size)) ∧
    default_quantification_window_center = -3 ∧
    default_quantification_window_size = 1 ∧
    default_min_average_read_quality = 10 ∧
    default_min_frequency_alleles_around_cut_to_plot = 0.2 ∧
    default_plot_window_size = 20 := by
  obtain ⟨df, _, _, _, _, ht⟩ := written_inv a env t h
  subst ht
  refine ⟨?_, rfl, rfl, rfl, rfl, rfl⟩
  intro row hrow
  obtain ⟨r, _, rfl⟩ := List.mem_map.mp hrow
  exact ⟨colValue_buildRow_qwc a r, colValue_buildRow_qws a r,
         colValue_buildRow_marq a r, colValue_buildRow_mfacp a r,
         colValue_buildRow_pws a r⟩

theorem C3_witness :
    (make_text_input sampleArgs happyEnv).written = some [buildRow sampleArgs sampleRow] ∧
    ((∀ row ∈ [buildRow sampleArgs sampleRow],
      colValue row "quantification_window_center" =
        some (Cell.int sampleArgs.quantification_window_center) ∧
      colValue row "quantification_window_size" =
        some (Cell.int sampleArgs.quantification_window_size) ∧
      colValue row "min_average_read_quality" =
        some (Cell.int sampleArgs.min_average_read_quality) ∧
      colValue row "min_frequency_alleles_around_cut_to_plot" =
        some (Cell.float sampleArgs.min_frequency_alleles_around_cut_to_plot) ∧
      colValue row "plot_window_size" =
        some (Cell.int sampleArgs.plot_window_size)) ∧
    default_quantification_window_center = -3 ∧
    default_quantification_window_size = 1 ∧
    default_min_average_read_quality = 10 ∧
    default_min_frequency_alleles_around_cut_to_plot = 0.2 ∧
    default_plot_window_size = 20) :=
  ⟨rfl, C3_constant_columns sampleArgs happyEnv [buildRow sampleArgs sampleRow] rfl⟩

/-- Claim C4: for an input spreadsheet of N null-free rows on which the run
completes and writes, the written file has exactly N data rows plus one
header row. -/
theorem C4_row_count (a : Args) (env : Env) (df : List InputRow)
    (t : List (List Cell)) (showF : Rat → String)
    (hr : env.readResult = some df)
    (h : (make_text_input a env).written = some t) :
    (to_csv showF t).length = df.length + 1 := by
  obtain ⟨df', hr', _, _, _, ht⟩ := written_inv a env t h
  have hdf : df = df' := by rw [hr] at hr'; exact Option.some.inj hr'
  subst hdf
  subst ht
  simp [to_csv]

theorem C4_witness :
    happyEnv.readResult = some [sampleRow] ∧
    (make_text_input sampleArgs happyEnv).written = some [buildRow sampleArgs sampleRow] ∧
    (to_csv (fun _ => "") [buildRow sampleArgs sampleRow]).length =
      ([sampleRow] : List InputRow).length + 1 :=
  ⟨rfl, rfl,
   C4_row_count sampleArgs happyEnv [sampleRow] [buildRow sampleArgs sampleRow]
     (fun _ => "") rfl rfl⟩

/-- Claim C5: the written file is tab-separated with a header row and no
index column, the columns appearing exactly in the order name,
quantification_window_center, quantification_window_size,
min_average_read_quality, fastq_r1, fastq_r2, amplicon_seq, guide_seq,
min_frequency_alleles_around_cut_to_plot, plot_window_size: the first line
is the tab-joined header, line i+1 is row i's cells tab-joined in that
column order, and every data row has exactly one field per column. -/
theorem C5_output_format (a : Args) (env : Env) (df : List InputRow)
    (t : List (List Cell)) (showF : Rat → String)
    (hr : env.readResult = some df)
    (h : (make_text_input a env).written = some t) :
    out_cols = ["name", "quantification_window_center", "quantification_window_size",
      "min_average_read_quality", "fastq_r1", "fastq_r2", "amplicon_seq", "guide_seq",
      "min_frequency_alleles_around_cut_to_plot", "plot_window_size"] ∧
    (to_csv showF t)[0]? = some (String.intercalate "\t" out_cols) ∧
    (∀ (i : Nat) (row : List Cell), t[i]? = some row →
      (to_csv showF t)[i + 1]? =
        some (String.intercalate "\t" (row.map (Cell.render showF)))) ∧
    ∀ row ∈ t, (row.map (Cell.render showF)).length = out_cols.length := by
  refine ⟨by decide, by simp [to_csv], ?_, ?_⟩
  · intro i row hi
    simp [to_csv, List.getElem?_map, hi]
  · intro row hrow
    obtain ⟨df', _, _, _, _, ht⟩ := written_inv a env t h
    subst ht
    obtain ⟨r, _, rfl⟩ := List.mem_map.mp hrow
    rw [buildRow_eq]
    simp [out_cols]

theorem C5_witness :
    happyEnv.readResult = some [sampleRow] ∧
    (make_text_input sampleArgs happyEnv).written = some [buildRow sampleArgs sampleRow] ∧
    (out_cols = ["name", "quantification_window_center", "quantification_window_size",
      "min_average_read_quality", "fastq_r1", "fastq_r2", "amplicon_seq", "guide_seq",
      "min_frequency_alleles_around_cut_to_plot", "plot_window_size"] ∧
    (to_csv (fun _ => "") [buildRow sampleArgs sampleRow])[0]? =
      some (String.intercalate "\t" out_cols) ∧
    (∀ (i : Nat) (row : List Cell),
      ([buildRow sampleArgs sampleRow] : List (List Cell))[i]? = some row →
      (to_csv (fun _ => "") [buildRow sampleArgs sampleRow])[i + 1]? =
        some (String.intercalate "\t" (row.map (Cell.render (fun _ => ""))))) ∧
    ∀ row ∈ [buildRow sampleArgs sampleRow],
      (row.map (Cell.render (fun _ => ""))).length = out_cols.length) :=
  ⟨rfl, rfl,
   C5_output_format sampleArgs happyEnv [sampleRow] [buildRow sampleArgs sampleRow]
     (fun _ => "") rfl rfl⟩

/-- Claim C6: a row whose derived fastq_r1 or fastq_r2 path does not exist
gets a warning (not an error) logged for each such missing file, the run
does not abort, and the row still appears in the written output. -/
theorem C6_missing_fastq_nonfatal (a : Args) (env : Env) (df : List InputRow)
    (t : List (List Cell))
    (hr : env.readResult = some df)
    (h : (make_text_input a env).written = some t) :
    ∀ r ∈ df, ∀ p : String,
      (p = fastq_r1_of a.fastq_dir r.NGS_sample_name ∨
       p = fastq_r2_of a.fastq_dir r.NGS_sample_name) →
      pathExists env.fs p = false →
        warn_missing p ∈ (make_text_input a env).log ∧
        (∀ m, LogEvent.error m ∉ (make_text_input a env).log) ∧
        (make_text_input a env).outcome = .exit0 ∧
        buildRow a r ∈ t := by
  obtain ⟨df', hr', hnn, hdir, hw, ht⟩ := written_inv a env t h
  have hdf : df = df' := by rw [hr] at hr'; exact Option.some.inj hr'
  subst hdf
  subst ht
  have hrun := run_complete a env df hr hnn hdir
  rw [hw, if_pos rfl] at hrun
  intro r hm p hp hmiss
  have hpm : p ∈ missing_fastq_files env.fs
      (df.map fun x => fastq_r1_of a.fastq_dir x.NGS_sample_name)
      (df.map fun x => fastq_r2_of a.fastq_dir x.NGS_sample_name) := by
    rw [mem_missing]
    refine ⟨?_, hmiss⟩
    rcases hp with hp | hp
    · exact Or.inr (hp ▸ List.mem_map_of_mem _ hm)
    · exact Or.inl (hp ▸ List.mem_map_of_mem _ hm)
  have hwl : warn_missing p ∈ warnLog a env df := by
    unfold warnLog
    exact List.mem_map_of_mem warn_missing hpm
  refine ⟨?_, ?_, ?_, List.mem_map_of_mem (buildRow a) hm⟩
  · rw [hrun]
    simp [List.mem_append, hwl]
  · intro m hmem
    rw [hrun] at hmem
    simp [logHead, warnLog, warn_missing, List.mem_append, List.mem_map] at hmem
  · rw [hrun]

theorem C6_witness :
    happyEnv.readResult = some [sampleRow] ∧
    (make_text_input sampleArgs happyEnv).written = some [buildRow sampleArgs sampleRow] ∧
    sampleRow ∈ [sampleRow] ∧
    pathExists happyEnv.fs (fastq_r1_of sampleArgs.fastq_dir sampleRow.NGS_sample_name) = false ∧
    (warn_missing (fastq_r1_of sampleArgs.fastq_dir sampleRow.NGS_sample_name) ∈
        (make_text_input sampleArgs happyEnv).log ∧
      (∀ m, LogEvent.error m ∉ (make_text_input sampleArgs happyEnv).log) ∧
      (make_text_input sampleArgs happyEnv).outcome = .exit0 ∧
      buildRow sampleArgs sampleRow ∈ [buildRow sampleArgs sampleRow]) :=
  ⟨rfl, rfl, List.mem_singleton.mpr rfl, rfl,
   C6_missing_fastq_nonfatal sampleArgs happyEnv [sampleRow]
     [buildRow sampleArgs sampleRow] rfl rfl
     sampleRow (List.mem_singleton.mpr rfl) _ (Or.inl rfl) rfl⟩

/-- Claim C7 (code bug in the source): on a failed spreadsheet read the
handler of line 87 calls `logging.info.error`, an attribute lookup on the
function object `logging.info` that itself raises `AttributeError`; so,
contrary to the claim, nothing is logged as an error, the handler does
raise, and execution does not continue past the read step.  The modelled
run on a failing read ends in an uncaught AttributeError with no output
written and no error event logged. -/
theorem C7_read_failure_behavior :
    (make_text_input sampleArgs noReadEnv).outcome = .raised .attributeError ∧
    (make_text_input sampleArgs noReadEnv).written = none ∧
    ∀ m, LogEvent.error m ∉ (make_text_input sampleArgs noReadEnv).log := by
  refine ⟨rfl, rfl, ?_⟩
  intro m hm
  simp [make_text_input, noReadEnv] at hm

/-- Claim C8: with readable null-free input and an existing fastq directory
the process exits 0; when the output write fails, the failure is only
logged, no file is produced, and the exit status is still 0. -/
theorem C8_exit_zero (a : Args) (env : Env) (df : List InputRow)
    (hr : env.readResult = some df)
    (hnn : df.filter inputRowHasNull = [])
    (hdir : pathExists env.fs a.fastq_dir = true) :
    (make_text_input a env).outcome = .exit0 ∧
    (env.writeOk = false →
      (make_text_input a env).written = none ∧
      LogEvent.error "Failed to write file" ∈ (make_text_input a env).log) := by
  have hrun := run_complete a env df hr hnn hdir
  cases hw : env.writeOk
  · rw [hw, if_neg (by simp)] at hrun
    rw [hrun]
    refine ⟨rfl, fun _ => ⟨rfl, ?_⟩⟩
    simp [List.mem_append]
  · rw [hw, if_pos rfl] at hrun
    rw [hrun]
    exact ⟨rfl, by simp⟩

theorem C8_witness :
    noWriteEnv.readResult = some [sampleRow] ∧
    ([sampleRow] : List InputRow).filter inputRowHasNull = [] ∧
    pathExists noWriteEnv.fs sampleArgs.fastq_dir = true ∧
    ((make_text_input sampleArgs noWriteEnv).outcome = .exit0 ∧
     (noWriteEnv.writeOk = false →
       (make_text_input sampleArgs noWriteEnv).written = none ∧
       LogEvent.error "Failed to write file" ∈
         (make_text_input sampleArgs noWriteEnv).log)) :=
  ⟨rfl, rfl, rfl, C8_exit_zero sampleArgs noWriteEnv [sampleRow] rfl rfl rfl⟩

/-- Claim C9: when the fastq directory does not exist, the run halts with
the assertion failure of line 119 - after the per-file existence warnings
(which are in the log) and the numeric-column insertions, and before any
output is written. -/
theorem C9_missing_dir_assert (a : Args) (env : Env) (df : List InputRow)
    (hr : env.readResult = some df)
    (hnn : df.filter inputRowHasNull = [])
    (hdir : pathExists env.fs a.fastq_dir = false) :
    (make_text_input a env).outcome = .raised (.assertionError 119) ∧
    (make_text_input a env).written = none ∧
    ∀ p ∈ missing_fastq_files env.fs
        (df.map fun r => fastq_r1_of a.fastq_dir r.NGS_sample_name)
        (df.map fun r => fastq_r2_of a.fastq_dir r.NGS_sample_name),
      warn_missing p ∈ (make_text_input a env).log := by
  have hrun := run_dir_missing a env df hr hnn hdir
  rw [hrun]
  refine ⟨rfl, rfl, ?_⟩
  intro p hp
  have hwl : warn_missing p ∈ warnLog a env df := by
    unfold warnLog
    exact List.mem_map_of_mem warn_missing hp
  simp [List.mem_append, hwl]

theorem C9_witness :
    noDirEnv.readResult = some [sampleRow] ∧
    ([sampleRow] : List InputRow).filter inputRowHasNull = [] ∧
    pathExists noDirEnv.fs sampleArgs.fastq_dir = false ∧
    ((make_text_input sampleArgs noDirEnv).outcome = .raised (.assertionError 119) ∧
     (make_text_input sampleArgs noDirEnv).written = none ∧
     ∀ p ∈ missing_fastq_files noDirEnv.fs
         (([sampleRow] : List InputRow).map fun r => fastq_r1_of sampleArgs.fastq_dir r.NGS_sample_name)
         (([sampleRow] : List InputRow).map fun r => fastq_r2_of sampleArgs.fastq_dir r.NGS_sample_name),
       warn_missing p ∈ (make_text_input sampleArgs noDirEnv).log) :=
  ⟨rfl, rfl, rfl, C9_missing_dir_assert sampleArgs noDirEnv [sampleRow] rfl rfl rfl⟩

/-- Claim C10: the line-90 null check spans every column of the input
spreadsheet: a null cell in any column, including ones never projected into
the output, aborts the run with the line-90 assertion failure before any
output is written. -/
theorem C10_null_any_column_aborts (a : Args) (env : Env) (df : List InputRow)
    (hr : env.readResult = some df)
    (hnull : ∃ r ∈ df, inputRowHasNull r = true) :
    (make_text_input a env).outcome = .raised (.assertionError 90) ∧
    (make_text_input a env).written = none := by
  obtain ⟨r, hm, hn⟩ := hnull
  have hne : df.filter inputRowHasNull ≠ [] :=
    List.ne_nil_of_mem (List.mem_filter.mpr ⟨hm, hn⟩)
  rw [run_null_abort a env df hr hne]
  exact ⟨rfl, rfl⟩

theorem C10_witness :
    extraNullEnv.readResult = some [extraNullRow] ∧
    (∃ r ∈ [extraNullRow], inputRowHasNull r = true) ∧
    extraNullRow.NGS_sample_name ≠ none ∧
    extraNullRow.Ref_sequence ≠ none ∧
    extraNullRow.Guide_Sequence ≠ none ∧
    ((make_text_input sampleArgs extraNullEnv).outcome = .raised (.assertionError 90) ∧
     (make_text_input sampleArgs extraNullEnv).written = none) :=
  ⟨rfl, ⟨extraNullRow, List.mem_singleton.mpr rfl, rfl⟩,
   by decide, by decide, by decide,
   C10_null_any_column_aborts sampleArgs extraNullEnv [extraNullRow] rfl
     ⟨extraNullRow, List.mem_singleton.mpr rfl, rfl⟩⟩

end MakeText
